import Mathlib

/-!
Verification development for the on-device confirmation and navigation
engine of `legacy/firmware/layout2.c` (bixin firmware): the derivation-path
humanizer (`address_n_str`, `slip44_extras`), the fixed-width message pager
(`split_message`, `split_message_hex`) and the home/info/screensaver
navigation state machine (`layoutHomeInfo` together with `layoutHome`,
`layoutScreensaver`, `layoutDeviceInfo`).

Machine integers are modelled as `Nat`, with the 32-bit masks and modular
subtraction written out explicitly where the C code relies on them.
External collaborators (coin registry, clock, transport/tamper poll,
configuration store) are passed in as explicit parameters of the
embedded functions.
-/

namespace Layout2

/-! ## Path humanizer: `slip44_extras` and `address_n_str` -/

/-- The BIP32 hardened bit 0x80000000. -/
def hardenedBit : Nat := 2147483648

/-- The mask 0x7fffffff. -/
def lowBits : Nat := 2147483647

/-- Constant BIP32_MAX_LAST_ELEMENT from the source. -/
def BIP32_MAX_LAST_ELEMENT : Nat := 1000000

/-- The fields of the external `CoinInfo` that `address_n_str` reads:
`coin_shortcut` (a string whose first character is skipped by the
`coin->coin_shortcut + 1` pointer arithmetic), `has_segwit`, and the
field `bech32_hrp`, which models whether the C field named
bech32 hrp-prefix is a non-null pointer. -/
structure CoinInfo where
  coin_shortcut : String
  has_segwit : Bool
  bech32_hrp : Bool
deriving Repr, DecidableEq

/-- Function slip44_extras (layout2.c, lines 72-93): static extras ticker table,
only for coin types with the top (hardened) bit set. -/
def slip44_extras (coin_type : Nat) : Option String :=
  if coin_type &&& hardenedBit == 0 then none
  else
    match coin_type &&& lowBits with
    | 40 => some "EXP"
    | 43 => some "NEM"
    | 60 => some "ETH"
    | 61 => some "ETC"
    | 108 => some "UBQ"
    | 137 => some "RSK"
    | 37310 => some "tRSK"
    | _ => none

/-- The two-digit account rendering of `address_n_str` (lines 161-168):
a single character (48 + accnum) when `accnum < 10`, else the two
characters (48 + accnum / 10) and (48 + accnum % 10). -/
def acc_digits (n : Nat) : String :=
  if n < 10 then String.mk [Char.ofNat (48 + n)]
  else String.mk [Char.ofNat (48 + n / 10), Char.ofNat (48 + n % 10)]

/-- One component of the raw path rendering (lines 181-195): the C code
writes, right to left, an apostrophe when the hardened bit is set, then
the decimal digits of the low 31 bits, then a slash; read left to right
that is slash ++ digits ++ apostrophe (character 39). -/
def path_item (i : Nat) : String :=
  "/" ++ toString (i &&& lowBits)
    ++ (if i &&& hardenedBit != 0 then String.singleton (Char.ofNat 39) else "")

/-- The raw `"Path: m/..."` rendering produced by the fallback of
`address_n_str` (lines 174-210). -/
def rawPath (l : List Nat) : String :=
  "Path: m" ++ String.join (l.map path_item)

/-- The known-BIP44/49/84 branch of `address_n_str` (lines 111-171):
returns `some label` exactly when the C code returns the composed `path`
buffer, `none` when it falls through to the raw rendering. -/
def knownPathLabel (lookup : Nat → Option CoinInfo) (l : List Nat)
    (address_is_account : Bool) : Option String :=
  match l with
  | [a0, a1, a2, a3, a4] =>
    if (a0 == hardenedBit + 44 || a0 == hardenedBit + 49 || a0 == hardenedBit + 84)
        && (a1 &&& hardenedBit != 0) && (a2 &&& hardenedBit != 0)
        && decide (a3 ≤ 1) && decide (a4 ≤ BIP32_MAX_LAST_ELEMENT) then
      let native_segwit := a0 == hardenedBit + 84
      let p2sh_segwit := a0 == hardenedBit + 49
      let coin := lookup a1
      let abbrLegacy : Option String × Bool :=
        if native_segwit then
          match coin with
          | some c =>
            if c.has_segwit && c.bech32_hrp then (some (c.coin_shortcut.drop 1), false)
            else (none, false)
          | none => (none, false)
        else if p2sh_segwit then
          match coin with
          | some c =>
            if c.has_segwit then (some (c.coin_shortcut.drop 1), false)
            else (none, false)
          | none => (none, false)
        else
          match coin with
          | some c => (some (c.coin_shortcut.drop 1), c.has_segwit)
          | none => (slip44_extras a1, false)
      let accnum := (if address_is_account then a4 &&& lowBits else a2 &&& lowBits) + 1
      match abbrLegacy.1 with
      | some ab =>
        if accnum < 100 then
          some (ab ++ (if abbrLegacy.2 then " legacy" else "")
              ++ (if native_segwit then " segwit" else "")
              ++ (if address_is_account then " address #" else " account #")
              ++ acc_digits accnum)
        else none
      | none => none
    else none
  | _ => none

/-- Function address_n_str (layout2.c, lines 99-211). `lookup` embeds the external
`coinBySlip44` registry; it is applied to `address_n[1]` exactly as the C
code does. -/
def address_n_str (lookup : Nat → Option CoinInfo) (address_n : List Nat)
    (address_is_account : Bool) : String :=
  if address_n.length > 8 then "Unknown long path"
  else if address_n.length == 0 then "Path: m"
  else
    match knownPathLabel lookup address_n address_is_account with
    | some s => s
    | none => rawPath address_n

/-! ## Message pager: `split_message` and `split_message_hex` -/

/-- Model of `strlcpy(dst, buf + off, cnt + 1)` reading from a NUL-terminated
buffer whose contents are the byte list `buf`: copies at most `cnt`
bytes, stopping at the first zero byte (the terminator after the end of
`buf` included). The result is the C-string content stored in `dst`. -/
def cstrTake (buf : List Nat) (off cnt : Nat) : List Nat :=
  ((buf.drop off).take cnt).takeWhile (fun b => b != 0)

/-- A `char line[33]` array holding the C string `l`: the copied bytes
followed by the zero bytes `memzero` left in place. -/
def pad33 (l : List Nat) : List Nat :=
  l ++ List.replicate (33 - l.length) 0

/-- The value a consumer reads from a line buffer: bytes up to the first
NUL. -/
def lineStr (l : List Nat) : List Nat :=
  l.takeWhile (fun b => b != 0)

/-- The four line buffers produced by `split_message`, plus `truncated`,
which records whether the ellipsis-overwriting branch
(`len > rowlen * 4`, lines 239-243) was taken — the only truncation
signal the C code produces. -/
structure PagedText where
  line0 : List Nat
  line1 : List Nat
  line2 : List Nat
  line3 : List Nat
  truncated : Bool
deriving Repr, DecidableEq

/-- Function split_message (layout2.c, lines 223-246). The input buffer is the
byte list `msg` (so `len = msg.length`), NUL-terminated after its end as
in every call site. `rowlen` is clamped to 32; lines 1-3 are filled only
when the input is long enough; when `len > rowlen * 4` the bytes at
indices `rowlen-1`, `rowlen-2`, `rowlen-3` of line 3 are overwritten
with the dot character (46). -/
def split_message (msg : List Nat) (rowlen0 : Nat) : PagedText :=
  let rowlen := if rowlen0 > 32 then 32 else rowlen0
  let len := msg.length
  let l0 := pad33 (cstrTake msg 0 rowlen)
  let l1 := if len > rowlen then pad33 (cstrTake msg rowlen rowlen) else pad33 []
  let l2 := if len > rowlen * 2 then pad33 (cstrTake msg (rowlen * 2) rowlen) else pad33 []
  let l3 := if len > rowlen * 3 then pad33 (cstrTake msg (rowlen * 3) rowlen) else pad33 []
  let l3 :=
    if len > rowlen * 4 then
      ((l3.set (rowlen - 1) 46).set (rowlen - 2) 46).set (rowlen - 3) 46
    else l3
  ⟨l0, l1, l2, l3, decide (len > rowlen * 4)⟩

/-- Modelled from the spec: the external `data2hex` (declared in util.h,
not part of this file) "hex-encodes" its input, two lowercase hex digits
per byte. -/
def hexDigit (n : Nat) : Nat :=
  if n < 10 then 48 + n else 87 + n

/-- Modelled from the spec: hex encoding of a byte list (`data2hex`). -/
def hexEnc (l : List Nat) : List Nat :=
  l.flatMap (fun b => [hexDigit (b / 16), hexDigit (b % 16)])

/-- Function split_message_hex (layout2.c, lines 248-261): hex-encode the first
`min len 32` bytes into the `hex` buffer; when `len > 32` overwrite
`hex[63]` and `hex[62]` with the dot character (46); then paginate with
row width 16 and
length `size * 2`. -/
def split_message_hex (msg : List Nat) : PagedText :=
  let size := if msg.length > 32 then 32 else msg.length
  let hex := hexEnc (msg.take size)
  let hex := if msg.length > 32 then (hex.set 63 46).set 62 46 else hex
  split_message hex 16

/-- The description given by the spec (§4.1b) of the hex truncation: at most the
first 32 bytes are encoded, and when the source exceeds 32 bytes the
last two encoded characters are replaced with `".."`. -/
def hexTruncSpec (msg : List Nat) : List Nat :=
  if msg.length > 32 then (hexEnc (msg.take 32)).take 62 ++ [46, 46]
  else hexEnc msg

/-! ## Navigation state machine: `layoutHomeInfo` and helpers

The per-tick entry point is `layoutHomeInfo` (lines 1413-1493), compiled
for the device (`EMULATOR` undefined), together with the pieces of
`layoutHome` (lines 300-362), `layoutScreensaver` (lines 285-289) and
`layoutDeviceInfo` (lines 1175-1411) that touch `layoutLast`, the
timers, and the abort/clear/power-off collaborators.  Screen rendering
is abstracted to render effects; external reads (`buttonUpdate` edges,
`timer_ms`, `layoutNeedRefresh`, `sys_nfcState() || sys_usbState()`,
the `layoutStatusLogo` result and `config_getAutoLockDelayMs`) are the
inputs of a tick. -/

/-- The values `layoutLast` takes in this file: `layoutHome`,
`layoutScreensaver`, `layoutDeviceInfo`, `layoutDialogSwipe`,
`layoutProgressSwipe`. -/
inductive Screen
  | home
  | screensaver
  | deviceInfo
  | dialog
  | progress
deriving Repr, DecidableEq

/-- Side-effect calls a tick can issue to external collaborators. -/
inductive Effect
  | renderHome
  | renderScreensaver
  | renderInfoPage (n : Nat)
  | abortRecovery
  | abortSigning
  | clearSession (wipe : Bool)
  | powerOff
deriving Repr, DecidableEq

/-- The mutable state read and written by the navigation machinery:
`layoutLast`, the static `info_page` of `layoutHomeInfo`, and the three
millisecond timers (`system_millis_lock_start`,
`system_millis_display_info_start`, `system_millis_logo_refresh`). -/
structure NavCtx where
  layoutLast : Screen
  info_page : Nat
  lock_start : Nat
  info_start : Nat
  logo_refresh : Nat
deriving Repr, DecidableEq

/-- The external inputs consumed during one `layoutHomeInfo` tick. -/
structure TickInput where
  btnNo : Bool
  btnYes : Bool
  btnUp : Bool
  btnDown : Bool
  now : Nat
  needRefresh : Bool
  transport : Bool
  tamper : Bool
  autoLockDelayMs : Nat
deriving Repr, DecidableEq

/-- `(uint32_t)(now - start)`: 32-bit wrapping elapsed time, as computed
by the `timer_ms() - start` comparisons in the source. -/
def elapsed (now start : Nat) : Nat :=
  (4294967296 + now % 4294967296 - start % 4294967296) % 4294967296

/-- Function layoutHome (lines 300-362): renders the home screen, runs the
`layoutStatusLogo(true)` check (lines 351-357) which on a tamper /
disconnect report aborts recovery and signing and clears the session,
sets `layoutLast = layoutHome` and resets `system_millis_lock_start`. -/
def layoutHome_m (inp : TickInput) (s : NavCtx) : NavCtx × List Effect :=
  ({ s with layoutLast := .home, lock_start := inp.now },
   if inp.tamper then
     [.renderHome, .abortRecovery, .abortSigning, .clearSession true]
   else [.renderHome])

/-- Function layoutScreensaver (lines 285-289): blank the display and set
`layoutLast = layoutScreensaver`. -/
def layoutScreensaver_m (s : NavCtx) : NavCtx × List Effect :=
  ({ s with layoutLast := .screensaver }, [.renderScreensaver])

/-- Function layoutDeviceInfo(page) (lines 1175-1411): renders the requested
info page, sets `layoutLast = layoutDeviceInfo` and resets
`system_millis_display_info_start`. -/
def layoutDeviceInfo_m (inp : TickInput) (page : Nat) (s : NavCtx) :
    NavCtx × List Effect :=
  ({ s with layoutLast := .deviceInfo, info_start := inp.now },
   [.renderInfoPage page])

/-- Lines 1417-1419: `if (layoutNeedRefresh()) layoutHome();`. -/
def tickRefresh (inp : TickInput) (s : NavCtx) : NavCtx × List Effect :=
  if inp.needRefresh then layoutHome_m inp s else (s, [])

/-- Lines 1420-1448: the home-screen button handling and the
device-info page navigation (10-second auto revert, prev/next/cancel),
ending with `if (info_page == 0) layoutHome();`. -/
def tickButtons (inp : TickInput) (s : NavCtx) : NavCtx × List Effect :=
  if s.layoutLast == .home then
    if inp.btnUp || inp.btnDown then
      let page := if inp.btnUp then 4 else 1
      let r := layoutDeviceInfo_m inp page s
      ({ r.1 with info_page := page }, r.2)
    else (s, [])
  else if s.layoutLast == .deviceInfo then
    let ip0 := if elapsed inp.now s.info_start ≥ 10 * 1000 then 0 else s.info_page
    let r1 : NavCtx × Nat × List Effect :=
      if inp.btnUp then
        if ip0 ≠ 0 then
          let r := layoutDeviceInfo_m inp (ip0 - 1) s
          (r.1, ip0 - 1, r.2)
        else (s, ip0, [])
      else if inp.btnDown then
        if ip0 < 4 then
          let r := layoutDeviceInfo_m inp (ip0 + 1) s
          (r.1, ip0 + 1, r.2)
        else (s, 0, [])
      else if inp.btnNo then (s, 0, [])
      else (s, ip0, [])
    let s1 := { r1.1 with info_page := r1.2.1 }
    if r1.2.1 == 0 then
      let r := layoutHome_m inp s1
      (r.1, r1.2.2 ++ r.2)
    else (s1, r1.2.2)
  else (s, [])

/-- Lines 1450-1480: evaluated when `layoutLast == layoutHome` after the
button handling; the auto-lock check (session clear + screensaver when
transport is present, `shutdown()` otherwise — modelled as a `powerOff`
effect; on hardware `shutdown` does not return) followed by the
1000 ms `layoutStatusLogo(false)` poll, which both run inside the same
`if` block. -/
def tickHomeTimers (inp : TickInput) (s : NavCtx) : NavCtx × List Effect :=
  if s.layoutLast == .home then
    let ra : NavCtx × List Effect :=
      if elapsed inp.now s.lock_start ≥ inp.autoLockDelayMs then
        if inp.transport then
          let r := layoutScreensaver_m s
          (r.1, .clearSession true :: r.2)
        else (s, [.powerOff])
      else (s, [])
    let rb : NavCtx × List Effect :=
      if elapsed inp.now ra.1.logo_refresh ≥ 1000 then
        let rc : NavCtx × List Effect :=
          if inp.tamper then
            let r := layoutHome_m inp ra.1
            (r.1, [.abortRecovery, .abortSigning, .clearSession true] ++ r.2)
          else (ra.1, [])
        ({ rc.1 with logo_refresh := inp.now }, rc.2)
      else (ra.1, [])
    (rb.1, ra.2 ++ rb.2)
  else (s, [])

/-- Lines 1481-1492: wake from the screensaver on any button edge
(early return), else the fail-safe cancel handling — on any screen
other than home and screensaver a `NoUp` edge aborts recovery and
signing, leaving the screen unchanged. -/
def tickWakeAbort (inp : TickInput) (s : NavCtx) : NavCtx × List Effect :=
  if s.layoutLast == .screensaver
      && (inp.btnNo || inp.btnYes || inp.btnUp || inp.btnDown) then
    layoutHome_m inp s
  else if s.layoutLast != .home && s.layoutLast != .screensaver && inp.btnNo then
    (s, [.abortRecovery, .abortSigning])
  else (s, [])

/-- One layoutHomeInfo tick (lines 1413-1493): the four sequential
blocks of the function, with the side-effect calls collected in
program order. -/
def tick (inp : TickInput) (s0 : NavCtx) : NavCtx × List Effect :=
  let r1 := tickRefresh inp s0
  let r2 := tickButtons inp r1.1
  let r3 := tickHomeTimers inp r2.1
  let r4 := tickWakeAbort inp r3.1
  (r4.1, r1.2 ++ r2.2 ++ r3.2 ++ r4.2)

/-! ## Concrete collaborators used in closed statements -/

/-- A concrete coin-registry entry: shortcut naming BTC (with the
leading filler character the C table carries), segwit-capable, with a
bech32 human-readable part present. -/
def btcCoin : CoinInfo := ⟨" BTC", true, true⟩

/-- A registry resolving coin type 0 (looked up under its hardened
value, as the C code passes `address_n[1]` raw) to `btcCoin`. -/
def btcLookup : Nat → Option CoinInfo :=
  fun n => if n == hardenedBit then some btcCoin else none

/-- The empty coin registry. -/
def emptyLookup : Nat → Option CoinInfo := fun _ => none

/-- A registry resolving every coin type to a non-segwit coin named
XYZ. -/
def xyzLookup : Nat → Option CoinInfo := fun _ => some ⟨" XYZ", false, false⟩

/-! ## Helper lemmas -/

/-- Taking while a predicate holds never lengthens a list. -/
theorem takeWhile_length_le (p : Nat → Bool) (l : List Nat) :
    (l.takeWhile p).length ≤ l.length := by
  induction l with
  | nil => simp
  | cons x xs ih =>
    by_cases h : p x = true
    · rw [List.takeWhile_cons, if_pos h]
      simpa using Nat.succ_le_succ ih
    · rw [List.takeWhile_cons, if_neg h]
      simp

/-- Taking while a predicate holds walks through a block on which the
predicate holds everywhere. -/
theorem takeWhile_append_of_all (p : Nat → Bool) (l1 l2 : List Nat)
    (h : ∀ b ∈ l1, p b) :
    (l1 ++ l2).takeWhile p = l1 ++ l2.takeWhile p := by
  induction l1 with
  | nil => simp
  | cons x xs ih =>
    simp only [List.cons_append, List.takeWhile_cons]
    rw [h x (by simp)]
    simp only [if_true]
    rw [ih (fun b hb => h b (by simp [hb]))]

/-- A block of NUL bytes stops the C-string read immediately. -/
theorem takeWhile_replicate_zero (k : Nat) :
    (List.replicate k 0).takeWhile (fun b => b != 0) = [] := by
  cases k with
  | zero => simp
  | succ n => simp [List.replicate_succ, List.takeWhile_cons]

/-- Reading an all-nonzero C string out of its padded line buffer gives
the string back. -/
theorem lineStr_pad33_of_all (l : List Nat) (h : ∀ b ∈ l, b ≠ 0) :
    lineStr (pad33 l) = l := by
  unfold lineStr pad33
  rw [takeWhile_append_of_all _ _ _ (fun b hb => by simp [h b hb])]
  rw [takeWhile_replicate_zero]
  simp

/-- A strlcpy with size `cnt + 1` stores at most `cnt` bytes. -/
theorem cstrTake_length_le (buf : List Nat) (off cnt : Nat) :
    (cstrTake buf off cnt).length ≤ cnt := by
  unfold cstrTake
  calc (((buf.drop off).take cnt).takeWhile (fun b => b != 0)).length
      ≤ ((buf.drop off).take cnt).length := takeWhile_length_le _ _
    _ ≤ cnt := by simp [List.length_take]

/-- A line buffer is always 33 bytes long. -/
theorem pad33_length (l : List Nat) (h : l.length ≤ 33) :
    (pad33 l).length = 33 := by
  simp [pad33]; omega

/-- Setting the last two entries of a list equals dropping and
re-appending them. -/
theorem set_set_last_two (n : Nat) : ∀ (l : List Nat) (c : Nat), l.length = n + 2 →
    (l.set (n + 1) c).set n c = l.take n ++ [c, c] := by
  induction n with
  | zero =>
    intro l c h
    match l with
    | [] => simp at h
    | [a] => simp at h
    | a :: b :: t =>
      have : t = [] := by simpa using h
      subst this; rfl
  | succ m ih =>
    intro l c h
    match l with
    | [] => simp at h
    | x :: xs =>
      simp only [List.set_cons_succ, List.take_succ_cons, List.cons_append]
      rw [ih xs c (by simpa using h)]

/-- Hex encoding yields two bytes per input byte. -/
theorem hexEnc_length (l : List Nat) : (hexEnc l).length = 2 * l.length := by
  induction l with
  | nil => rfl
  | cons x xs ih => simp only [hexEnc, List.flatMap_cons] at *; simp [ih]; omega

/-- On a tick whose result shows the home screen, the lock timer was
either reset to the current time by an entry into home, or the phase
left an already-home state untouched (refresh phase). -/
theorem tickRefresh_lock (inp : TickInput) (s : NavCtx) :
    (tickRefresh inp s).1.layoutLast = .home →
    (tickRefresh inp s).1.lock_start = inp.now ∨
    (s.layoutLast = .home ∧ (tickRefresh inp s).1.lock_start = s.lock_start) := by
  unfold tickRefresh layoutHome_m
  repeat' split
  all_goals simp_all

/-- Entering home resets the lock timer (button phase). -/
theorem tickButtons_lock (inp : TickInput) (s : NavCtx) :
    (tickButtons inp s).1.layoutLast = .home →
    (tickButtons inp s).1.lock_start = inp.now ∨
    (s.layoutLast = .home ∧ (tickButtons inp s).1.lock_start = s.lock_start) := by
  unfold tickButtons layoutDeviceInfo_m layoutHome_m
  split_ifs <;> try simp_all
  all_goals (rcases hip : s.info_page with _ | _ | _ | _ | m <;> try simp_all)
  all_goals (have hm : ¬ (m + 1 + 1 + 1 + 1 < 4) := by omega
             simp only [hm, if_false]
             simp_all)

/-- Entering home resets the lock timer (home-timers phase). -/
theorem tickHomeTimers_lock (inp : TickInput) (s : NavCtx) :
    (tickHomeTimers inp s).1.layoutLast = .home →
    (tickHomeTimers inp s).1.lock_start = inp.now ∨
    (s.layoutLast = .home ∧ (tickHomeTimers inp s).1.lock_start = s.lock_start) := by
  unfold tickHomeTimers layoutScreensaver_m layoutHome_m
  split_ifs <;> try simp_all
  all_goals (by_cases hlr : 1000 ≤ elapsed inp.now s.logo_refresh <;>
             simp only [hlr, if_true, if_false] <;> simp_all)

/-- Entering home resets the lock timer (wake/abort phase). -/
theorem tickWakeAbort_lock (inp : TickInput) (s : NavCtx) :
    (tickWakeAbort inp s).1.layoutLast = .home →
    (tickWakeAbort inp s).1.lock_start = inp.now ∨
    (s.layoutLast = .home ∧ (tickWakeAbort inp s).1.lock_start = s.lock_start) := by
  unfold tickWakeAbort layoutHome_m
  repeat' split
  all_goals simp_all

/-- Entering an info page resets the info timer (refresh phase). -/
theorem tickRefresh_info (inp : TickInput) (s : NavCtx) :
    (tickRefresh inp s).1.layoutLast = .deviceInfo →
    (tickRefresh inp s).1.info_start = inp.now ∨
    (s.layoutLast = .deviceInfo ∧ (tickRefresh inp s).1.info_start = s.info_start) := by
  unfold tickRefresh layoutHome_m
  repeat' split
  all_goals simp_all

/-- Entering an info page resets the info timer (button phase). -/
theorem tickButtons_info (inp : TickInput) (s : NavCtx) :
    (tickButtons inp s).1.layoutLast = .deviceInfo →
    (tickButtons inp s).1.info_start = inp.now ∨
    (s.layoutLast = .deviceInfo ∧ (tickButtons inp s).1.info_start = s.info_start) := by
  unfold tickButtons layoutDeviceInfo_m layoutHome_m
  split_ifs <;> try simp_all
  all_goals (rcases hip : s.info_page with _ | _ | _ | _ | m <;> try simp_all)
  all_goals (have hm : ¬ (m + 1 + 1 + 1 + 1 < 4) := by omega
             simp only [hm, if_false]
             simp_all)

/-- Entering an info page resets the info timer (home-timers phase). -/
theorem tickHomeTimers_info (inp : TickInput) (s : NavCtx) :
    (tickHomeTimers inp s).1.layoutLast = .deviceInfo →
    (tickHomeTimers inp s).1.info_start = inp.now ∨
    (s.layoutLast = .deviceInfo ∧ (tickHomeTimers inp s).1.info_start = s.info_start) := by
  unfold tickHomeTimers layoutScreensaver_m layoutHome_m
  split_ifs <;> try simp_all
  all_goals (by_cases hlr : 1000 ≤ elapsed inp.now s.logo_refresh <;>
             simp only [hlr, if_true, if_false] <;> simp_all)

/-- Entering an info page resets the info timer (wake/abort phase). -/
theorem tickWakeAbort_info (inp : TickInput) (s : NavCtx) :
    (tickWakeAbort inp s).1.layoutLast = .deviceInfo →
    (tickWakeAbort inp s).1.info_start = inp.now ∨
    (s.layoutLast = .deviceInfo ∧ (tickWakeAbort inp s).1.info_start = s.info_start) := by
  unfold tickWakeAbort layoutHome_m
  repeat' split
  all_goals simp_all

/-! ## Claim theorems -/

/-- C1, counterexample: on a tick starting on an info page (a screen
that is neither Home nor Screensaver) with the cancel edge set, the
machine issues no abort calls at all and the screen changes to Home,
refuting the claim as stated. -/
theorem C1_infopage_cancel_counterexample :
    (let s : NavCtx := ⟨.deviceInfo, 2, 0, 5000, 0⟩
     let inp : TickInput := ⟨true, false, false, false, 6000, false, false, false, 1000000⟩
     s.layoutLast ≠ .home ∧ s.layoutLast ≠ .screensaver ∧ inp.btnNo = true ∧
     (tick inp s).2.count .abortSigning = 0 ∧
     (tick inp s).2.count .abortRecovery = 0 ∧
     (tick inp s).1.layoutLast ≠ s.layoutLast) := by
  decide

/-- C1, amended: on a tick with no pending display refresh whose screen
is neither Home, Screensaver, nor an info page (that is, a dialog or
progress screen), a cancel edge issues exactly one abortSigning call
and exactly one abortRecovery call and leaves the screen unchanged. -/
theorem C1_cancel_abort_outside_info (inp : TickInput) (s : NavCtx)
    (hscreen : s.layoutLast = .dialog ∨ s.layoutLast = .progress)
    (hno : inp.btnNo = true) (href : inp.needRefresh = false) :
    (tick inp s).2.count .abortSigning = 1 ∧
    (tick inp s).2.count .abortRecovery = 1 ∧
    (tick inp s).1.layoutLast = s.layoutLast := by
  rcases hscreen with hs | hs <;>
    simp [tick, tickRefresh, tickButtons, tickHomeTimers, tickWakeAbort,
      layoutHome_m, hs, hno, href, List.count_cons]

/-- C1, witness: the amended theorem applied to a concrete dialog-screen
tick with the cancel edge set. -/
theorem C1_cancel_abort_outside_info_witness :
    ((⟨.dialog, 0, 3, 4, 5⟩ : NavCtx).layoutLast = .dialog ∨
     (⟨.dialog, 0, 3, 4, 5⟩ : NavCtx).layoutLast = .progress) ∧
    (⟨true, false, false, false, 100, false, false, false, 60000⟩ : TickInput).btnNo = true ∧
    (⟨true, false, false, false, 100, false, false, false, 60000⟩ : TickInput).needRefresh = false ∧
    ((tick ⟨true, false, false, false, 100, false, false, false, 60000⟩
        ⟨.dialog, 0, 3, 4, 5⟩).2.count .abortSigning = 1 ∧
     (tick ⟨true, false, false, false, 100, false, false, false, 60000⟩
        ⟨.dialog, 0, 3, 4, 5⟩).2.count .abortRecovery = 1 ∧
     (tick ⟨true, false, false, false, 100, false, false, false, 60000⟩
        ⟨.dialog, 0, 3, 4, 5⟩).1.layoutLast = (⟨.dialog, 0, 3, 4, 5⟩ : NavCtx).layoutLast) :=
  ⟨Or.inl rfl, rfl, rfl,
   C1_cancel_abort_outside_info _ _ (Or.inl rfl) rfl rfl⟩

/-- C2, counterexample: on a Home tick with no button edges, auto-lock
delay elapsed and transport present, but with the 1 Hz status poll due
and reporting tamper/disconnect in the same tick, clearSession(true) is
called three times (not once) and the final screen is Home (not
Screensaver), refuting the claim as stated. -/
theorem C2_tamper_poll_counterexample :
    (let s : NavCtx := ⟨.home, 0, 0, 0, 0⟩
     let inp : TickInput := ⟨false, false, false, false, 60000, false, true, true, 60000⟩
     s.layoutLast = .home ∧ inp.btnNo = false ∧ inp.btnYes = false ∧
     inp.btnUp = false ∧ inp.btnDown = false ∧
     elapsed inp.now s.lock_start ≥ inp.autoLockDelayMs ∧ inp.transport = true ∧
     (tick inp s).2.count (.clearSession true) = 3 ∧
     (tick inp s).1.layoutLast = .home) := by
  decide

/-- C2, amended: on a Home tick with no button edges, no pending
refresh, no tamper/disconnect report, and the auto-lock delay elapsed
since the last activity: with transport present the tick issues exactly
one clearSession(true) call and the next screen is Screensaver; without
transport it issues exactly one powerOff call (and the screen stays
Home in the model of the non-returning shutdown). -/
theorem C2_autolock_transition (inp : TickInput) (s : NavCtx)
    (hs : s.layoutLast = .home)
    (hno : inp.btnNo = false) (hyes : inp.btnYes = false)
    (hup : inp.btnUp = false) (hdown : inp.btnDown = false)
    (href : inp.needRefresh = false) (htamper : inp.tamper = false)
    (hlock : elapsed inp.now s.lock_start ≥ inp.autoLockDelayMs) :
    (inp.transport = true →
      (tick inp s).2.count (.clearSession true) = 1 ∧
      (tick inp s).1.layoutLast = .screensaver) ∧
    (inp.transport = false →
      (tick inp s).2.count .powerOff = 1 ∧
      (tick inp s).1.layoutLast = .home) := by
  constructor <;> intro htr <;>
    simp [tick, tickRefresh, tickButtons, tickHomeTimers, tickWakeAbort,
      layoutHome_m, layoutScreensaver_m, hs, hno, hyes, hup, hdown, href,
      htamper, htr, hlock, List.count_cons] <;>
    split <;> simp [List.count_cons, hs]

/-- C2, witness: the amended theorem applied to a concrete Home tick
with the delay elapsed and transport present. -/
theorem C2_autolock_transition_witness :
    (⟨.home, 0, 0, 0, 0⟩ : NavCtx).layoutLast = .home ∧
    elapsed (60000 : Nat) 0 ≥ 60000 ∧
    (⟨false, false, false, false, 60000, false, true, false, 60000⟩ : TickInput).transport = true ∧
    ((true = true →
      (tick ⟨false, false, false, false, 60000, false, true, false, 60000⟩
        ⟨.home, 0, 0, 0, 0⟩).2.count (.clearSession true) = 1 ∧
      (tick ⟨false, false, false, false, 60000, false, true, false, 60000⟩
        ⟨.home, 0, 0, 0, 0⟩).1.layoutLast = .screensaver) ∧
     (true = false →
      (tick ⟨false, false, false, false, 60000, false, true, false, 60000⟩
        ⟨.home, 0, 0, 0, 0⟩).2.count .powerOff = 1 ∧
      (tick ⟨false, false, false, false, 60000, false, true, false, 60000⟩
        ⟨.home, 0, 0, 0, 0⟩).1.layoutLast = .home)) :=
  ⟨rfl, by decide, rfl,
   C2_autolock_transition ⟨false, false, false, false, 60000, false, true, false, 60000⟩
     ⟨.home, 0, 0, 0, 0⟩ rfl rfl rfl rfl rfl rfl rfl (by decide)⟩

/-- C3: every derivation path with more than 8 components maps to the
fixed sentinel, for every registry and every value of the
account-level flag: no component is interpreted. -/
theorem C3_unknown_long_path (lookup : Nat → Option CoinInfo)
    (l : List Nat) (b : Bool) (h : l.length > 8) :
    address_n_str lookup l b = "Unknown long path" := by
  simp [address_n_str, h]

/-- C3, witness: a concrete 9-component path. -/
theorem C3_unknown_long_path_witness :
    ([1, 2, 3, 4, 5, 6, 7, 8, 9] : List Nat).length > 8 ∧
    address_n_str emptyLookup [1, 2, 3, 4, 5, 6, 7, 8, 9] true = "Unknown long path" :=
  ⟨by decide, C3_unknown_long_path emptyLookup [1, 2, 3, 4, 5, 6, 7, 8, 9] true (by decide)⟩

/-- C4, counterexample: with the registry resolving coin type 0 to a
segwit-capable BTC coin, the composed labels carry a single-digit
account number (48 + accnum), not a zero-padded two-digit one: the
results differ from the labels the claim states. -/
theorem C4_zero_padding_counterexample :
    address_n_str btcLookup [hardenedBit + 44, hardenedBit, hardenedBit, 0, 0] false
      ≠ "BTC legacy account #01" ∧
    address_n_str btcLookup [hardenedBit + 84, hardenedBit, hardenedBit, 0, 0] false
      ≠ "BTC segwit account #01" := by
  constructor <;> decide

/-- C4, amended: with the coin registry resolving coin type 0 to ticker
BTC with segwit support, humanize on the path 44h/0h/0h/0/0 with the
account-level flag false returns "BTC legacy account #1", and on
84h/0h/0h/0/0 returns "BTC segwit account #1" — the account number is
rendered as a single decimal digit when below 10 and two digits
otherwise, never zero-padded. -/
theorem C4_btc_account_labels (lookup : Nat → Option CoinInfo)
    (h : lookup hardenedBit = some btcCoin) :
    address_n_str lookup [hardenedBit + 44, hardenedBit, hardenedBit, 0, 0] false
      = "BTC legacy account #1" ∧
    address_n_str lookup [hardenedBit + 84, hardenedBit, hardenedBit, 0, 0] false
      = "BTC segwit account #1" := by
  have h2 : lookup 2147483648 = some btcCoin := h
  constructor <;>
    simp [address_n_str, knownPathLabel, h2, btcCoin, hardenedBit, lowBits,
      BIP32_MAX_LAST_ELEMENT, acc_digits] <;> rfl

/-- C4, witness: the amended theorem applied to the concrete BTC
registry. -/
theorem C4_btc_account_labels_witness :
    btcLookup hardenedBit = some btcCoin ∧
    (address_n_str btcLookup [hardenedBit + 44, hardenedBit, hardenedBit, 0, 0] false
      = "BTC legacy account #1" ∧
     address_n_str btcLookup [hardenedBit + 84, hardenedBit, hardenedBit, 0, 0] false
      = "BTC segwit account #1") :=
  ⟨by decide, C4_btc_account_labels btcLookup (by decide)⟩

/-- C5: on a canonical 5-component path whose coin type has no registry
entry, the segwit purposes 84 and 49 fall through to the raw
"Path: m/..." rendering, never an extras-table ticker; the extras table
is reached only for purpose 44 with an unregistered coin type (shown on
coin type 60, which the extras table maps to ETH), and a registry entry
takes precedence over the extras table there. -/
theorem C5_extras_last_resort (lookup : Nat → Option CoinInfo)
    (a1 a2 a3 a4 : Nat) (b : Bool)
    (hnone : lookup a1 = none)
    (h1 : a1 &&& hardenedBit ≠ 0) (h2 : a2 &&& hardenedBit ≠ 0)
    (h3 : a3 ≤ 1) (h4 : a4 ≤ BIP32_MAX_LAST_ELEMENT) :
    address_n_str lookup [hardenedBit + 84, a1, a2, a3, a4] b
        = rawPath [hardenedBit + 84, a1, a2, a3, a4] ∧
    address_n_str lookup [hardenedBit + 49, a1, a2, a3, a4] b
        = rawPath [hardenedBit + 49, a1, a2, a3, a4] ∧
    address_n_str emptyLookup
        [hardenedBit + 44, hardenedBit + 60, hardenedBit, 0, 0] false
        = "ETH account #1" ∧
    address_n_str xyzLookup
        [hardenedBit + 44, hardenedBit + 60, hardenedBit, 0, 0] false
        = "XYZ account #1" := by
  refine ⟨?_, ?_, by decide, by decide⟩ <;>
    simp [address_n_str, knownPathLabel, hnone, h1, h2, h3, h4, hardenedBit,
      BIP32_MAX_LAST_ELEMENT]

/-- C5, witness: the theorem applied to the empty registry and the
hardened coin type 60. -/
theorem C5_extras_last_resort_witness :
    emptyLookup (hardenedBit + 60) = none ∧
    (hardenedBit + 60) &&& hardenedBit ≠ 0 ∧
    hardenedBit &&& hardenedBit ≠ 0 ∧
    (0 : Nat) ≤ 1 ∧ (5 : Nat) ≤ BIP32_MAX_LAST_ELEMENT ∧
    (address_n_str emptyLookup
        [hardenedBit + 84, hardenedBit + 60, hardenedBit, 0, 5] false
        = rawPath [hardenedBit + 84, hardenedBit + 60, hardenedBit, 0, 5] ∧
     address_n_str emptyLookup
        [hardenedBit + 49, hardenedBit + 60, hardenedBit, 0, 5] false
        = rawPath [hardenedBit + 49, hardenedBit + 60, hardenedBit, 0, 5] ∧
     address_n_str emptyLookup
        [hardenedBit + 44, hardenedBit + 60, hardenedBit, 0, 0] false
        = "ETH account #1" ∧
     address_n_str xyzLookup
        [hardenedBit + 44, hardenedBit + 60, hardenedBit, 0, 0] false
        = "XYZ account #1") :=
  ⟨rfl, by decide, by decide, by decide, by decide,
   C5_extras_last_resort emptyLookup (hardenedBit + 60) hardenedBit 0 5 false
     rfl (by decide) (by decide) (by decide) (by decide)⟩

/-- C6: for every input longer than four row widths (with a row width
between 3 and the 32-byte clamp), the fourth line buffer carries the
dot character at positions rowWidth-3, rowWidth-2 and rowWidth-1 — its
last three characters are the "..." ellipsis — and the
truncation-marking branch is reported taken. -/
theorem C6_fourth_line_ellipsis (msg : List Nat) (rowlen : Nat)
    (h3 : 3 ≤ rowlen) (h32 : rowlen ≤ 32) (hlen : msg.length > 4 * rowlen) :
    (split_message msg rowlen).line3[rowlen - 3]? = some 46 ∧
    (split_message msg rowlen).line3[rowlen - 2]? = some 46 ∧
    (split_message msg rowlen).line3[rowlen - 1]? = some 46 ∧
    (split_message msg rowlen).truncated = true := by
  have hc : ¬ (rowlen > 32) := by omega
  have ht3 : msg.length > rowlen * 3 := by omega
  have ht4 : msg.length > rowlen * 4 := by omega
  have hL : (pad33 (cstrTake msg (rowlen * 3) rowlen)).length = 33 :=
    pad33_length _ (le_trans (cstrTake_length_le _ _ _) (by omega))
  simp only [split_message, hc, if_false, ht3, ht4, if_true, decide_eq_true_eq]
  refine ⟨?_, ?_, ?_, by simp [ht4]⟩
  · exact List.getElem?_set_eq_of_lt 46 (by simp [hL]; omega)
  · rw [List.getElem?_set_ne (by omega)]
    exact List.getElem?_set_eq_of_lt 46 (by simp [hL]; omega)
  · rw [List.getElem?_set_ne (by omega), List.getElem?_set_ne (by omega)]
    exact List.getElem?_set_eq_of_lt 46 (by simp [hL]; omega)

/-- C6, witness: 45 bytes at row width 10. -/
theorem C6_fourth_line_ellipsis_witness :
    (3 : Nat) ≤ 10 ∧ (10 : Nat) ≤ 32 ∧ (List.replicate 45 65).length > 4 * 10 ∧
    ((split_message (List.replicate 45 65) 10).line3[10 - 3]? = some 46 ∧
     (split_message (List.replicate 45 65) 10).line3[10 - 2]? = some 46 ∧
     (split_message (List.replicate 45 65) 10).line3[10 - 1]? = some 46 ∧
     (split_message (List.replicate 45 65) 10).truncated = true) :=
  ⟨by decide, by decide, by decide,
   C6_fourth_line_ellipsis (List.replicate 45 65) 10 (by decide) (by decide) (by decide)⟩

/-- C7, counterexample: a 3-byte input containing a NUL byte at row
width 20 — the stored line 0 reads back as a single byte, not the full
input, because strlcpy stops at the NUL, refuting the claim for
arbitrary non-text bytes. -/
theorem C7_nul_byte_counterexample :
    ([65, 0, 66] : List Nat).length ≤ 20 ∧
    lineStr (split_message [65, 0, 66] 20).line0 ≠ [65, 0, 66] := by
  decide

/-- C7, amended: for every input of length at most the row width (the
width within the 32-byte clamp) that contains no NUL byte, line 0 reads
back as the full input, lines 1 through 3 read back empty, and no
truncation is reported. -/
theorem C7_short_input_single_line (msg : List Nat) (rowlen : Nat)
    (h32 : rowlen ≤ 32) (hlen : msg.length ≤ rowlen) (hnz : ∀ b ∈ msg, b ≠ 0) :
    lineStr (split_message msg rowlen).line0 = msg ∧
    lineStr (split_message msg rowlen).line1 = [] ∧
    lineStr (split_message msg rowlen).line2 = [] ∧
    lineStr (split_message msg rowlen).line3 = [] ∧
    (split_message msg rowlen).truncated = false := by
  have hc : ¬ (rowlen > 32) := by omega
  have h1 : ¬ (msg.length > rowlen) := by omega
  have h2 : ¬ (msg.length > rowlen * 2) := by omega
  have h3 : ¬ (msg.length > rowlen * 3) := by omega
  have h4 : ¬ (msg.length > rowlen * 4) := by omega
  have hct : cstrTake msg 0 rowlen = msg := by
    unfold cstrTake
    rw [List.drop_zero, List.take_of_length_le hlen]
    rw [show msg = msg ++ [] by simp, takeWhile_append_of_all _ _ _
      (fun b hb => by simp [hnz b (by simpa using hb)])]
    simp
  simp only [split_message, hc, if_false, h1, h2, h3, h4, decide_eq_true_eq]
  refine ⟨?_, ?_, ?_, ?_, by simp [h4]⟩
  · rw [hct]; exact lineStr_pad33_of_all msg hnz
  all_goals simpa using lineStr_pad33_of_all [] (by simp)

/-- C7, witness: a concrete 2-byte input at row width 20. -/
theorem C7_short_input_single_line_witness :
    (20 : Nat) ≤ 32 ∧ ([72, 105] : List Nat).length ≤ 20 ∧
    (∀ b ∈ ([72, 105] : List Nat), b ≠ 0) ∧
    (lineStr (split_message [72, 105] 20).line0 = [72, 105] ∧
     lineStr (split_message [72, 105] 20).line1 = [] ∧
     lineStr (split_message [72, 105] 20).line2 = [] ∧
     lineStr (split_message [72, 105] 20).line3 = [] ∧
     (split_message [72, 105] 20).truncated = false) :=
  ⟨by decide, by decide, by decide,
   C7_short_input_single_line [72, 105] 20 (by decide) (by decide) (by decide)⟩

/-- C8: for every input, split_message_hex equals the pagination, at
the fixed row width 16, of the hex text the spec describes — the
encoding of at most the first 32 bytes, with the last two of the 64
encoded characters replaced by dots when the input exceeds 32 bytes —
and that encoded text never exceeds 64 characters. -/
theorem C8_hex_pagination (msg : List Nat) :
    split_message_hex msg = split_message (hexTruncSpec msg) 16 ∧
    (hexTruncSpec msg).length ≤ 64 := by
  by_cases h : msg.length > 32
  · have h1 : (hexEnc (msg.take 32)).length = 64 := by
      rw [hexEnc_length]; simp [List.length_take]; omega
    unfold split_message_hex hexTruncSpec
    simp only [h, if_true]
    constructor
    · congr 1
      have := set_set_last_two 62 (hexEnc (msg.take 32)) 46 (by omega)
      simpa using this
    · simp [List.length_take]
  · unfold split_message_hex hexTruncSpec
    simp only [h, if_false]
    constructor
    · congr 1
      rw [List.take_of_length_le (le_refl msg.length)]
    · rw [hexEnc_length]; omega

/-- C9, counterexample: a tick on a dialog screen with the confirm
button edge set leaves the lock timer untouched — a button edge alone
does not reset the last-activity time, refuting the claim as stated. -/
theorem C9_button_edge_counterexample :
    (let s : NavCtx := ⟨.dialog, 0, 111, 0, 0⟩
     let inp : TickInput := ⟨false, true, false, false, 5000, false, false, false, 100000⟩
     inp.btnYes = true ∧ (tick inp s).1.lock_start ≠ inp.now) := by
  decide

/-- C9, amended: on every tick that enters the Home screen (the result
shows Home, the tick started elsewhere) the last-activity timer is
reset to the current time, and on every tick that enters an info page
the info-display timer is reset to the current time; a button edge
resets the last-activity timer only through such an entry into Home. -/
theorem C9_entering_resets_timers (inp : TickInput) (s : NavCtx) :
    ((tick inp s).1.layoutLast = .home → s.layoutLast ≠ .home →
      (tick inp s).1.lock_start = inp.now) ∧
    ((tick inp s).1.layoutLast = .deviceInfo → s.layoutLast ≠ .deviceInfo →
      (tick inp s).1.info_start = inp.now) := by
  constructor
  · intro hpost hpre
    simp only [tick] at hpost ⊢
    rcases tickWakeAbort_lock inp _ hpost with h4 | ⟨h4a, h4b⟩
    · exact h4
    · rw [h4b]
      rcases tickHomeTimers_lock inp _ h4a with h3 | ⟨h3a, h3b⟩
      · exact h3
      · rw [h3b]
        rcases tickButtons_lock inp _ h3a with h2 | ⟨h2a, h2b⟩
        · exact h2
        · rw [h2b]
          rcases tickRefresh_lock inp _ h2a with h1 | ⟨h1a, h1b⟩
          · exact h1
          · exact absurd h1a hpre
  · intro hpost hpre
    simp only [tick] at hpost ⊢
    rcases tickWakeAbort_info inp _ hpost with h4 | ⟨h4a, h4b⟩
    · exact h4
    · rw [h4b]
      rcases tickHomeTimers_info inp _ h4a with h3 | ⟨h3a, h3b⟩
      · exact h3
      · rw [h3b]
        rcases tickButtons_info inp _ h3a with h2 | ⟨h2a, h2b⟩
        · exact h2
        · rw [h2b]
          rcases tickRefresh_info inp _ h2a with h1 | ⟨h1a, h1b⟩
          · exact h1
          · exact absurd h1a hpre

/-- C9, witness: waking from the screensaver enters Home and resets the
lock timer to the tick time; pressing next on Home enters info page 1
and resets the info timer to the tick time. -/
theorem C9_entering_resets_timers_witness :
    ((tick ⟨false, true, false, false, 5000, false, false, false, 100000⟩
        ⟨.screensaver, 0, 7, 8, 9⟩).1.layoutLast = .home ∧
     (⟨.screensaver, 0, 7, 8, 9⟩ : NavCtx).layoutLast ≠ .home ∧
     (tick ⟨false, true, false, false, 5000, false, false, false, 100000⟩
        ⟨.screensaver, 0, 7, 8, 9⟩).1.lock_start = 5000) ∧
    ((tick ⟨false, false, false, true, 777, false, false, false, 100000⟩
        ⟨.home, 0, 0, 0, 0⟩).1.layoutLast = .deviceInfo ∧
     (⟨.home, 0, 0, 0, 0⟩ : NavCtx).layoutLast ≠ .deviceInfo ∧
     (tick ⟨false, false, false, true, 777, false, false, false, 100000⟩
        ⟨.home, 0, 0, 0, 0⟩).1.info_start = 777) :=
  ⟨⟨by decide, by decide,
    (C9_entering_resets_timers ⟨false, true, false, false, 5000, false, false, false, 100000⟩
      ⟨.screensaver, 0, 7, 8, 9⟩).1 (by decide) (by decide)⟩,
   ⟨by decide, by decide,
    (C9_entering_resets_timers ⟨false, false, false, true, 777, false, false, false, 100000⟩
      ⟨.home, 0, 0, 0, 0⟩).2 (by decide) (by decide)⟩⟩

/-- C10: on a Home tick with both the prev (UpUp) and next (DownUp)
edges set, the prev edge wins: the machine shows info page 4, rendering
page 4 exactly once and page 1 never, for every value of the remaining
inputs. -/
theorem C10_prev_precedence (inp : TickInput) (s : NavCtx)
    (hs : s.layoutLast = .home) (hup : inp.btnUp = true) (hdown : inp.btnDown = true) :
    (tick inp s).1.layoutLast = .deviceInfo ∧
    (tick inp s).1.info_page = 4 ∧
    (tick inp s).2.count (.renderInfoPage 4) = 1 ∧
    (tick inp s).2.count (.renderInfoPage 1) = 0 := by
  cases hnr : inp.needRefresh <;> cases ht : inp.tamper <;> cases hno : inp.btnNo <;>
    simp [tick, tickRefresh, tickButtons, tickHomeTimers, tickWakeAbort,
      layoutHome_m, layoutDeviceInfo_m, hs, hup, hdown, hnr, ht, hno, List.count_cons]

/-- C10, witness: a concrete Home tick with both edges set. -/
theorem C10_prev_precedence_witness :
    (⟨.home, 0, 0, 0, 0⟩ : NavCtx).layoutLast = .home ∧
    (⟨false, false, true, true, 500, false, false, false, 1000000⟩ : TickInput).btnUp = true ∧
    (⟨false, false, true, true, 500, false, false, false, 1000000⟩ : TickInput).btnDown = true ∧
    ((tick ⟨false, false, true, true, 500, false, false, false, 1000000⟩
        ⟨.home, 0, 0, 0, 0⟩).1.layoutLast = .deviceInfo ∧
     (tick ⟨false, false, true, true, 500, false, false, false, 1000000⟩
        ⟨.home, 0, 0, 0, 0⟩).1.info_page = 4 ∧
     (tick ⟨false, false, true, true, 500, false, false, false, 1000000⟩
        ⟨.home, 0, 0, 0, 0⟩).2.count (.renderInfoPage 4) = 1 ∧
     (tick ⟨false, false, true, true, 500, false, false, false, 1000000⟩
        ⟨.home, 0, 0, 0, 0⟩).2.count (.renderInfoPage 1) = 0) :=
  ⟨rfl, rfl, rfl,
   C10_prev_precedence _ _ rfl rfl rfl⟩

end Layout2
